import Mathlib

/-!
Shallow embedding of the dnssec-security-tester core (src/dnssec_tester):
models.py (Severity, IssueType, SecurityIssue, KeyInfo, ChainElement,
ValidationResult.overall_status), validator.py (DNSSECValidator policy
checks), resolver.py (DNSResolver.walk_chain), tester.py (DNSSECTester
orchestration) and analyzer.py (DNSSECAnalyzer.analyze_result).

Modelling conventions:
- Machine integers are Int/Nat; Python `datetime` values are unix seconds
  (Int); `timedelta.days` is floored division by 86400, i.e. Int.fdiv.
- Every call the Python code makes to `datetime.utcnow()` (the day-bucket
  computations and the `SecurityIssue.timestamp` default) is modelled by an
  explicit `now : Int` parameter threaded to the functions that construct
  issues; a single Python call uses one clock reading.
- The external dnspython library (out of scope per the spec) appears as:
  the `RawResolver` oracle standing for `dns.resolver.Resolver.resolve`,
  which may fail (Except models a raised exception such as a timeout); and
  the fields of `RawDNSKey`, which carry the library outputs the parser
  reads (`dns.dnssec.key_id`, `AlgorithmType.to_text`, `key.bit_length()`,
  `key.hex()`).
- Python string formatting such as `datetime.isoformat()` is abstracted to
  the decimal rendering of the underlying integer; set-iteration order in
  `', '.join(set)` is taken in the literal order of the table.
-/

/-- models.py Severity enum. -/
inductive Severity where
  | critical
  | high
  | medium
  | low
  | info
deriving DecidableEq, Repr

/-- models.py IssueType enum. -/
inductive IssueType where
  | chain_invalid
  | signature_expired
  | algorithm_weak
  | key_weak
  | ds_mismatch
  | expiration_warning
  | configuration_issue
  | key_rollover
  | nsec_issue
  | trust_anchor_issue
deriving DecidableEq, Repr

/-- models.py SecurityIssue dataclass; `timestamp` is the utcnow() default
captured at construction. -/
structure SecurityIssue where
  type : IssueType
  severity : Severity
  message : String
  details : Option String := none
  remediation : Option String := none
  affected_rrset : Option String := none
  timestamp : Int
deriving DecidableEq, Repr

/-- models.py KeyInfo dataclass (the `bits` field is the Python int from
`rdata.key.bit_length()`). -/
structure KeyInfo where
  keytag : Nat
  algorithm : String
  bits : Int
  flags : Nat
  is_ksk : Bool
  is_zsk : Bool
  valid_from : Option Int := none
  valid_until : Option Int := none
  public_key : Option String := none
deriving DecidableEq, Repr

/-- models.py ChainElement dataclass (the untyped `details` dict, never
populated by the modelled code paths, is omitted). -/
structure ChainElement where
  name : String
  rdtype : String
  valid : Bool
  keys : List KeyInfo := []
  signatures : List String := []
  issues : List SecurityIssue := []
deriving DecidableEq, Repr

/-- models.py ValidationResult dataclass. -/
structure ValidationResult where
  domain : String
  timestamp : Int
  dnssec_enabled : Bool
  chain_valid : Bool
  validation_time_ms : Int
  chain_of_trust : List ChainElement := []
  ksk_list : List KeyInfo := []
  zsk_list : List KeyInfo := []
  security_issues : List SecurityIssue := []
  total_rrsets_signed : Nat := 0
  expired_signatures : Nat := 0
  warnings : Nat := 0
  nameservers : List String := []
  resolver_used : Option String := none
deriving DecidableEq, Repr

/-- models.py ValidationResult.overall_status property: Python
`any(i.severity == Severity.X for i in self.security_issues)` and list
truthiness. -/
def ValidationResult.overall_status (r : ValidationResult) : String :=
  if !r.dnssec_enabled then "no_dnssec"
  else if r.security_issues.any (fun i => decide (i.severity = Severity.critical)) then "critical_issues"
  else if r.security_issues.any (fun i => decide (i.severity = Severity.high)) then "vulnerable"
  else if !r.security_issues.isEmpty then "warnings"
  else "secure"

/-- Projection to the severity of each issue, for stating bucket shapes. -/
def severities (l : List SecurityIssue) : List Severity :=
  l.map (fun i => i.severity)

/-- All fields of an issue except the creation timestamp. -/
def stripTs (i : SecurityIssue) :
    IssueType × Severity × String × Option String × Option String × Option String :=
  (i.type, i.severity, i.message, i.details, i.remediation, i.affected_rrset)

/-- validator.py DNSSECValidator.RECOMMENDED_ALGORITHMS (set literal,
kept in source order). -/
def RECOMMENDED_ALGORITHMS : List String :=
  ["ECDSAP256SHA256", "ECDSAP384SHA384", "ED25519", "ED448"]

/-- validator.py DNSSECValidator.DEPRECATED_ALGORITHMS. -/
def DEPRECATED_ALGORITHMS : List String :=
  ["RSAMD5", "RSASHA1", "RSASHA1NSEC3SHA1"]

/-- validator.py DNSSECValidator.NOT_RECOMMENDED; note it lists
ECDSAP256SHA256, which also appears in RECOMMENDED_ALGORITHMS. -/
def NOT_RECOMMENDED : List String :=
  ["RSASHA256", "RSASHA512", "ECDSAP256SHA256"]

/-- Character-list prefix test used by the substring test below. -/
def isPrefixChars : List Char → List Char → Bool
  | [], _ => true
  | _ :: _, [] => false
  | p :: ps, c :: cs => p == c && isPrefixChars ps cs

/-- Substring scan over a character list. -/
def hasSubstrAux (pat : List Char) : List Char → Bool
  | [] => isPrefixChars pat []
  | c :: cs => isPrefixChars pat (c :: cs) || hasSubstrAux pat cs

/-- Python `pat in s` substring containment on strings. -/
def containsSubstr (s pat : String) : Bool :=
  hasSubstrAux pat.toList s.toList

/-- validator.py check_algorithm_strength. For a string argument the
Python code leaves it unchanged (the `.upper()` is applied only to int
arguments); membership is tested first in the deprecated set, then in the
not-recommended set. -/
def check_algorithm_strength (algorithm : String) (now : Int) : List SecurityIssue :=
  let algo_str := algorithm
  let recs := String.intercalate ", " RECOMMENDED_ALGORITHMS
  if DEPRECATED_ALGORITHMS.contains algo_str then
    [{ type := IssueType.algorithm_weak
       severity := Severity.critical
       message := s!"Algorithm {algo_str} is deprecated per RFC 8624"
       remediation := some s!"Migrate to {recs}"
       timestamp := now }]
  else if NOT_RECOMMENDED.contains algo_str then
    [{ type := IssueType.algorithm_weak
       severity := Severity.medium
       message := s!"Algorithm {algo_str} is not recommended per RFC 8624"
       remediation := some s!"Consider migrating to {recs}"
       timestamp := now }]
  else []

/-- Python `str.upper()` restricted to ASCII case mapping, written as a
structural map so it computes by kernel reduction. -/
def pyUpper (s : String) : String :=
  String.mk (s.toList.map Char.toUpper)

/-- validator.py check_key_strength: `algo_str = str(algorithm).upper()`,
then family detection by substring (`'RSA' in algo_str` first, then
`'ECDSA' in algo_str`); any other name falls through with no issues. -/
def check_key_strength (algorithm : String) (bits : Int) (now : Int) : List SecurityIssue :=
  let algo_str := pyUpper algorithm
  if containsSubstr algo_str "RSA" then
    if bits < 2048 then
      [{ type := IssueType.key_weak
         severity := Severity.critical
         message := s!"RSA key too weak ({bits} bits, minimum 2048 required)"
         remediation := some "Generate new RSA key with at least 2048 bits"
         timestamp := now }]
    else if bits < 4096 then
      [{ type := IssueType.key_weak
         severity := Severity.medium
         message := s!"RSA key could be stronger ({bits} bits, 4096 recommended)"
         remediation := some "Consider upgrading to 4096-bit RSA or ECDSA"
         timestamp := now }]
    else []
  else if containsSubstr algo_str "ECDSA" then
    if bits < 256 then
      [{ type := IssueType.key_weak
         severity := Severity.critical
         message := s!"ECDSA key too weak ({bits} bits, minimum 256 required)"
         remediation := some "Use ECDSA with P-256 or P-384 curve"
         timestamp := now }]
    else []
  else []

/-- validator.py check_signature_expiration: a missing `expiration`
attribute is the `none` case; otherwise
`days_until_expiry = (utcfromtimestamp(expiration) - utcnow()).days`,
which on whole seconds is the floored quotient by 86400. -/
def check_signature_expiration (expiration : Option Int) (now : Int) : List SecurityIssue :=
  match expiration with
  | none => []
  | some exp =>
    let days_until_expiry := Int.fdiv (exp - now) 86400
    if days_until_expiry < 0 then
      let n := days_until_expiry.natAbs
      [{ type := IssueType.signature_expired
         severity := Severity.critical
         message := s!"Signature expired {n} days ago"
         details := some s!"Expiration: {exp}"
         remediation := some "Re-sign the zone immediately"
         timestamp := now }]
    else if days_until_expiry < 7 then
      [{ type := IssueType.expiration_warning
         severity := Severity.high
         message := s!"Signature expires in {days_until_expiry} days"
         details := some s!"Expiration: {exp}"
         remediation := some "Plan re-signing within 7 days"
         timestamp := now }]
    else if days_until_expiry < 30 then
      [{ type := IssueType.expiration_warning
         severity := Severity.medium
         message := s!"Signature expires in {days_until_expiry} days"
         details := some s!"Expiration: {exp}"
         remediation := some "Schedule re-signing within 30 days"
         timestamp := now }]
    else []

/-- validator.py check_key_rollover: missing-KSK check, then missing-ZSK
check, then the per-key expiry check in key order. -/
def check_key_rollover (keys : List KeyInfo) (now : Int) : List SecurityIssue :=
  let ksks := keys.filter (fun k => k.is_ksk)
  let zsks := keys.filter (fun k => k.is_zsk)
  (if ksks.isEmpty then
    [{ type := IssueType.key_weak
       severity := Severity.high
       message := "No Key Signing Key (KSK) found"
       remediation := some "Zone must have at least one KSK for validation"
       timestamp := now }]
   else [])
  ++ (if zsks.isEmpty then
    [{ type := IssueType.key_weak
       severity := Severity.high
       message := "No Zone Signing Key (ZSK) found"
       remediation := some "Zone must have at least one ZSK for signing records"
       timestamp := now }]
   else [])
  ++ keys.flatMap (fun k =>
    match k.valid_until with
    | none => []
    | some vu =>
      let d := Int.fdiv (vu - now) 86400
      if 0 < d ∧ d < 30 then
        let kt := k.keytag
        [{ type := IssueType.key_rollover
           severity := Severity.medium
           message := s!"Key {kt} expires in {d} days"
           remediation := some s!"Plan key rollover for key {kt}"
           timestamp := now }]
      else [])

/-- One raw DNSKEY rdata as the parser sees it. `flags` is the record's
16-bit flags field; the remaining fields carry the outputs of the external
dnspython calls made on this record: `key_id` for `dns.dnssec.key_id`,
`algorithm_text` for `dns.dnssec.AlgorithmType.to_text(rdata.algorithm)`,
`key_bit_length` for `rdata.key.bit_length()`, `key_hex` for
`rdata.key.hex()`. -/
structure RawDNSKey where
  flags : Nat
  algorithm_text : String
  key_id : Nat
  key_bit_length : Int
  key_hex : String
deriving DecidableEq, Repr

/-- The external dnspython resolver (out-of-scope collaborator): one
lookup per record type used by the core. `Except.error` models a raised
exception (timeout, network failure); `Except.ok none` models a query
that produced no answer. DS rdata content is never inspected by the core,
so DS records are opaque. -/
structure RawResolver where
  dnskey : String → Except String (Option (List RawDNSKey))
  ds : String → Except String (Option (List Nat))

/-- Structural split of a character list at the dots (Python
`s.split('.')`), written by recursion on the characters so it computes
by kernel reduction. -/
def splitDotAux : List Char → List Char → List String
  | [], acc => [String.mk acc.reverse]
  | c :: cs, acc =>
    if c = '.' then String.mk acc.reverse :: splitDotAux cs []
    else splitDotAux cs (c :: acc)

/-- Labels of a domain name as `dns.name.from_text` sees them (empty
labels dropped, root label implicit). -/
def labelsOf (domain : String) : List String :=
  (splitDotAux domain.toList []).filter (fun s => !s.toList.isEmpty)

/-- Absolute text form of a label list, `str(dns.name.Name)` style, with
the trailing root dot. -/
def nameFrom (labels : List String) : String :=
  String.intercalate "." labels ++ "."

/-- Absolute name of chain level `i`: level 0 is the full domain, each
level strips one leading label (resolver.py `current.parent()`). -/
def nameAt (labels : List String) (i : Nat) : String :=
  nameFrom (labels.drop i)

/-- Normal form a queried name reaches inside resolver.py `query` via
`dns.name.from_text`: both `example.com` and `example.com.` denote the
same name, so the oracle is keyed on the absolute form. -/
def normalize_name (domain : String) : String :=
  nameFrom (labelsOf domain)

/-- resolver.py `query`/`get_dnskeys`: the catch-all `except` turns any
raised exception into `None`, so the function is total. -/
def get_dnskeys (raw : RawResolver) (domain : String) : Option (List RawDNSKey) :=
  match raw.dnskey (normalize_name domain) with
  | Except.ok v => v
  | Except.error _ => none

/-- resolver.py `get_ds_records`, same error convention. -/
def get_ds_records (raw : RawResolver) (domain : String) : Option (List Nat) :=
  match raw.ds (normalize_name domain) with
  | Except.ok v => v
  | Except.error _ => none

/-- The per-level data collected by resolver.py `walk_chain`. -/
structure ChainData where
  dnskeys : Option (List RawDNSKey)
  ds_records : Option (List Nat)
deriving DecidableEq, Repr

/-- resolver.py `walk_chain` loop with its body abstracted as `step`:
each iteration queries the current name; the surrounding try/except
breaks out of the loop on a raised error, returning the elements already
collected. The loop variable is the label list of the current name, so
the recursion is structural and terminates. -/
def walk_chain_aux (step : String → Except String ChainData) :
    List String → List (String × ChainData)
  | [] => []
  | l :: rest =>
    match step (nameFrom (l :: rest)) with
    | Except.ok d => (nameFrom (l :: rest), d) :: walk_chain_aux step rest
    | Except.error _ => []

/-- The loop body resolver.py actually runs: `get_dnskeys` and
`get_ds_records` convert every library error to an absent record, so the
body itself never raises. -/
def chain_step (raw : RawResolver) (name : String) : Except String ChainData :=
  Except.ok { dnskeys := get_dnskeys raw name, ds_records := get_ds_records raw name }

/-- resolver.py `walk_chain` on a starting domain. -/
def walk_chain (raw : RawResolver) (domain : String) : List (String × ChainData) :=
  walk_chain_aux (chain_step raw) (labelsOf domain)

/-- Python truthiness of an optional record list (`None` and the empty
set are both falsy). -/
def pyTruthy (o : Option (List α)) : Bool :=
  match o with
  | none => false
  | some l => !l.isEmpty

/-- tester.py `_parse_keys`. The `if not dnskeys` guard returns [] for an
absent or empty record set. For a non-empty set the first loop iteration
evaluates `dns.dnssec.key_id(rdata)` — but tester.py never imports `dns`
(its imports are logging, time, datetime, typing and the package's own
modules), so Python raises NameError before any KeyInfo is built; the
Except.error value carries `str(e)` of that NameError. The per-record
KeyInfo constructor below that call (is_ksk from `rdata.flags & 0x01`,
is_zsk hard-coded True with comment "Simplified - ZSK if not KSK") is
unreachable. -/
def parse_keys (dnskeys : Option (List RawDNSKey)) : Except String (List KeyInfo) :=
  match dnskeys with
  | none => Except.ok []
  | some l =>
    if l.isEmpty then Except.ok []
    else Except.error "name 'dns' is not defined"

/-- The loop of tester.py `_walk_and_validate_chain`: each walked level
becomes a ChainElement; `rdtype` and the key-parsing guard use Python
truthiness, while `valid` is `data['dnskeys'] is not None`. When the
guard is truthy, `_parse_keys` runs on a non-empty set, so it raises:
the surrounding try/except then returns the elements appended so far
(the element being built is lost). -/
def build_chain_elements : List (String × ChainData) → List ChainElement
  | [] => []
  | p :: rest =>
    if pyTruthy p.2.dnskeys then
      match parse_keys p.2.dnskeys with
      | Except.ok ks =>
        { name := p.1
          rdtype := "DNSKEY"
          valid := p.2.dnskeys.isSome
          keys := ks } :: build_chain_elements rest
      | Except.error _ => []
    else
      { name := p.1
        rdtype := "DS"
        valid := p.2.dnskeys.isSome
        keys := [] } :: build_chain_elements rest

/-- tester.py `_walk_and_validate_chain`: walk the chain, then build the
elements; the outer try/except also covers the walk itself, which is
total here. -/
def walk_and_validate_chain (raw : RawResolver) (domain : String) : List ChainElement :=
  build_chain_elements (walk_chain raw domain)

/-- config.py DNSSECConfig (the fields the modelled code paths read,
with their source defaults). -/
structure DNSSECConfig where
  timeout : Int := 10
  nameservers : List String := ["8.8.8.8", "1.1.1.1"]
  use_dnssec : Bool := true
  follow_chain : Bool := true
  validate_chain : Bool := true
  check_expiration : Bool := true
  check_algorithms : Bool := true
  check_key_strength : Bool := true
  verbose : Bool := false
  parallel_queries : Nat := 3
  cache_results : Bool := true
deriving DecidableEq, Repr

/-- tester.py `test_domain`: leaf DNSKEY lookup; on absence the result is
returned immediately with no issues. Otherwise the try block first calls
`_parse_keys`, whose NameError on any non-empty record set is caught by
the except at the orchestration boundary, yielding exactly one HIGH
chain_invalid issue `Validation error: {e}` and skipping the checks and
the walk (chain_valid stays at its False initialization). Only when the
parse returns (empty record set) do the per-key algorithm and
key-strength checks run (in that order, gated by config), then the
rollover check, then the chain walk (gated by `follow_chain`) with
`chain_valid = all(elem.valid)`; nothing after the parse can raise.
`validation_time_ms` is out of the model (kept 0). -/
def test_domain (raw : RawResolver) (cfg : DNSSECConfig) (now : Int) (domain : String) :
    ValidationResult :=
  let dnskeys := get_dnskeys raw domain
  let enabled := dnskeys.isSome
  let base : ValidationResult :=
    { domain := domain
      timestamp := now
      dnssec_enabled := enabled
      chain_valid := false
      validation_time_ms := 0 }
  if !enabled then base
  else match parse_keys dnskeys with
  | Except.error e =>
    { base with security_issues :=
        [{ type := IssueType.chain_invalid
           severity := Severity.high
           message := s!"Validation error: {e}"
           timestamp := now }] }
  | Except.ok keys_list =>
    let alg_issues :=
      if cfg.check_algorithms then
        keys_list.flatMap (fun k => check_algorithm_strength k.algorithm now)
      else []
    let key_issues :=
      if cfg.check_key_strength then
        keys_list.flatMap (fun k => check_key_strength k.algorithm k.bits now)
      else []
    let roll_issues := check_key_rollover keys_list now
    let chain := if cfg.follow_chain then walk_and_validate_chain raw domain else []
    let cvalid := if cfg.follow_chain then chain.all (fun e => e.valid) else false
    { base with
      ksk_list := keys_list.filter (fun k => k.is_ksk)
      zsk_list := keys_list.filter (fun k => k.is_zsk)
      security_issues := alg_issues ++ key_issues ++ roll_issues
      chain_of_trust := chain
      chain_valid := cvalid }

/-- tester.py `test_domains`: each domain is tested in order. The
`except` branch there appends nothing (it would drop the domain's result),
but it is unreachable: every failure path inside `test_domain` is caught
internally, so the loop reduces to a map. -/
def test_domains (raw : RawResolver) (cfg : DNSSECConfig) (now : Int)
    (domains : List String) : List ValidationResult :=
  domains.map (test_domain raw cfg now)

/-- analyzer.py `_analyze_keys`. -/
def analyze_keys (keys : List KeyInfo) (now : Int) : List SecurityIssue :=
  let ksk_count := (keys.filter (fun k => k.is_ksk)).length
  if ksk_count = 1 then
    [{ type := IssueType.configuration_issue
       severity := Severity.medium
       message := "Only one KSK found; redundancy recommended"
       remediation := some "Consider adding a second KSK for key rollover scenarios"
       timestamp := now }]
  else []

/-- analyzer.py `_analyze_chain`. -/
def analyze_chain (chain : List ChainElement) (now : Int) : List SecurityIssue :=
  chain.flatMap (fun e =>
    if !e.valid then
      let n := e.name
      [{ type := IssueType.chain_invalid
         severity := Severity.high
         message := s!"Chain element {n} validation failed"
         remediation := some s!"Check DNSSEC configuration for {n}"
         timestamp := now }]
    else [])

/-- analyzer.py `DNSSECAnalyzer.analyze_result`: disabled DNSSEC
short-circuits with a single HIGH configuration issue; otherwise the
chain-validity, missing-KSK, missing-ZSK, key-redundancy and per-element
checks run in order. -/
def analyze_result (r : ValidationResult) (now : Int) : List SecurityIssue :=
  if !r.dnssec_enabled then
    [{ type := IssueType.configuration_issue
       severity := Severity.high
       message := "DNSSEC is not enabled for this domain"
       remediation := some "Enable DNSSEC on the authoritative nameserver"
       timestamp := now }]
  else
    (if !r.chain_valid then
      [{ type := IssueType.chain_invalid
         severity := Severity.critical
         message := "DNSSEC chain of trust validation failed"
         remediation := some "Check DNSSEC configuration and signatures"
         timestamp := now }]
     else [])
    ++ (if r.ksk_list.isEmpty then
      [{ type := IssueType.key_weak
         severity := Severity.high
         message := "No Key Signing Key (KSK) found"
         remediation := some "Add a KSK to the zone"
         timestamp := now }]
     else [])
    ++ (if r.zsk_list.isEmpty then
      [{ type := IssueType.key_weak
         severity := Severity.high
         message := "No Zone Signing Key (ZSK) found"
         remediation := some "Add a ZSK to the zone"
         timestamp := now }]
     else [])
    ++ (let all_keys := r.ksk_list ++ r.zsk_list
        if !all_keys.isEmpty then analyze_keys all_keys now else [])
    ++ (if !r.chain_of_trust.isEmpty then analyze_chain r.chain_of_trust now else [])

/-- A resolver on which every query fails or is empty: models a domain
with no published key material (or a resolver timing out everywhere). -/
def emptyResolver : RawResolver :=
  { dnskey := fun _ => Except.ok none, ds := fun _ => Except.ok none }

/-- A resolver that times out (raises) on `b.com` and answers every other
name with a single deprecated RSASHA1 key. -/
def timeoutResolver : RawResolver :=
  { dnskey := fun n =>
      if n = "b.com." then Except.error "Timeout"
      else Except.ok (some [{ flags := 257, algorithm_text := "RSASHA1",
                              key_id := 12345, key_bit_length := 256, key_hex := "aa" }])
    ds := fun _ => Except.ok none }

/-- A resolver answering every name with one Ed25519 KSK. -/
def ed25519Resolver : RawResolver :=
  { dnskey := fun _ =>
      Except.ok (some [{ flags := 257, algorithm_text := "ED25519",
                         key_id := 6500, key_bit_length := 256, key_hex := "bb" }])
    ds := fun _ => Except.ok none }

/-- A walk-loop body succeeding at the leaf name and raising a transport
error at every other level. -/
def failingStep : String → Except String ChainData :=
  fun n =>
    if n = "www.example.com." then
      Except.ok { dnskeys := none, ds_records := none }
    else Except.error "SERVFAIL"


/-- C1 counterexample: ECDSAP256SHA256 is in the recommended set, yet
check_algorithm_strength returns one MEDIUM issue for it (it is also
listed in NOT_RECOMMENDED, which the code tests after the deprecated
set), so "every name in the recommended set returns zero issues" fails. -/
theorem algorithm_strength_recommended_cex :
    "ECDSAP256SHA256" ∈ RECOMMENDED_ALGORITHMS ∧
    check_algorithm_strength "ECDSAP256SHA256" 0 ≠ [] ∧
    severities (check_algorithm_strength "ECDSAP256SHA256" 0) = [Severity.medium] := by
  refine ⟨by decide, by decide, by decide⟩

/-- C1 (amended): a deprecated name yields exactly one CRITICAL issue; a
not-recommended (and not deprecated) name yields exactly one MEDIUM
issue; a recommended name other than ECDSAP256SHA256 yields no issue. -/
theorem algorithm_strength_classification (a : String) (now : Int) :
    (a ∈ DEPRECATED_ALGORITHMS →
      severities (check_algorithm_strength a now) = [Severity.critical]) ∧
    (a ∉ DEPRECATED_ALGORITHMS → a ∈ NOT_RECOMMENDED →
      severities (check_algorithm_strength a now) = [Severity.medium]) ∧
    (a ∈ RECOMMENDED_ALGORITHMS → a ≠ "ECDSAP256SHA256" →
      check_algorithm_strength a now = []) := by
  refine ⟨?_, ?_, ?_⟩
  · intro h
    simp only [DEPRECATED_ALGORITHMS, List.mem_cons, List.not_mem_nil, or_false] at h
    rcases h with rfl | rfl | rfl <;> rfl
  · intro _ h
    simp only [NOT_RECOMMENDED, List.mem_cons, List.not_mem_nil, or_false] at h
    rcases h with rfl | rfl | rfl <;> rfl
  · intro h hne
    simp only [RECOMMENDED_ALGORITHMS, List.mem_cons, List.not_mem_nil, or_false] at h
    rcases h with rfl | rfl | rfl | rfl
    · exact absurd rfl hne
    · rfl
    · rfl
    · rfl

/-- C1 witness: the three branches of the amended classification at
concrete algorithm names. -/
theorem algorithm_strength_classification_witness :
    severities (check_algorithm_strength "RSASHA1" 0) = [Severity.critical] ∧
    severities (check_algorithm_strength "RSASHA512" 0) = [Severity.medium] ∧
    check_algorithm_strength "ED25519" 0 = [] :=
  ⟨(algorithm_strength_classification "RSASHA1" 0).1 (by decide),
   (algorithm_strength_classification "RSASHA512" 0).2.1 (by decide) (by decide),
   (algorithm_strength_classification "ED25519" 0).2.2 (by decide) (by decide)⟩

/-- C5 counterexample: Ed25519 is an elliptic-curve algorithm, but the
family detection tests only the substrings RSA and ECDSA, so an
undersized Ed25519 key (128 < 256 bits) produces no issue at all. -/
theorem key_strength_ed25519_cex :
    (128 : Int) < 256 ∧ check_key_strength "ED25519" 128 0 = [] := by
  refine ⟨by decide, by decide⟩

/-- C5 (amended): family detection is by substring on the uppercased
name, RSA tested first: RSA-family names follow the 2048/4096 buckets;
non-RSA names containing ECDSA follow the 256 bucket; every other name
(including ED25519 and ED448) yields no issue at any bit length. -/
theorem key_strength_families (a : String) (bits : Int) (now : Int) :
    (containsSubstr (pyUpper a) "RSA" = true →
      (bits < 2048 → severities (check_key_strength a bits now) = [Severity.critical]) ∧
      (2048 ≤ bits → bits < 4096 → severities (check_key_strength a bits now) = [Severity.medium]) ∧
      (4096 ≤ bits → check_key_strength a bits now = [])) ∧
    (containsSubstr (pyUpper a) "RSA" = false → containsSubstr (pyUpper a) "ECDSA" = true →
      (bits < 256 → severities (check_key_strength a bits now) = [Severity.critical]) ∧
      (256 ≤ bits → check_key_strength a bits now = [])) ∧
    (containsSubstr (pyUpper a) "RSA" = false → containsSubstr (pyUpper a) "ECDSA" = false →
      check_key_strength a bits now = []) := by
  refine ⟨?_, ?_, ?_⟩
  · intro h
    refine ⟨fun hb => ?_, fun hb1 hb2 => ?_, fun hb => ?_⟩
    · simp [check_key_strength, h, hb, severities]
    · have hn : ¬ (bits < 2048) := by omega
      simp [check_key_strength, h, hn, hb2, severities]
    · have hn1 : ¬ (bits < 2048) := by omega
      have hn2 : ¬ (bits < 4096) := by omega
      simp [check_key_strength, h, hn1, hn2]
  · intro h1 h2
    refine ⟨fun hb => ?_, fun hb => ?_⟩
    · simp [check_key_strength, h1, h2, hb, severities]
    · have hn : ¬ (bits < 256) := by omega
      simp [check_key_strength, h1, h2, hn]
  · intro h1 h2
    simp [check_key_strength, h1, h2]

/-- C5 witness: each family branch of the amended statement at concrete
inputs, including an out-of-family Ed448 key. -/
theorem key_strength_families_witness :
    severities (check_key_strength "RSASHA256" 1024 0) = [Severity.critical] ∧
    severities (check_key_strength "ECDSAP384SHA384" 128 0) = [Severity.critical] ∧
    check_key_strength "ED448" 100 0 = [] :=
  ⟨((key_strength_families "RSASHA256" 1024 0).1 (by decide)).1 (by decide),
   ((key_strength_families "ECDSAP384SHA384" 128 0).2.1 (by decide) (by decide)).1 (by decide),
   (key_strength_families "ED448" 100 0).2.2 (by decide) (by decide)⟩

/-- C6: check_signature_expiration classifies by half-open buckets on
days-until-expiry (floored day difference): negative yields exactly one
CRITICAL issue, [0,7) exactly one HIGH, [7,30) exactly one MEDIUM, and
30 or more days yields no issue. -/
theorem signature_expiration_buckets (exp now : Int) :
    (Int.fdiv (exp - now) 86400 < 0 →
      severities (check_signature_expiration (some exp) now) = [Severity.critical]) ∧
    (0 ≤ Int.fdiv (exp - now) 86400 → Int.fdiv (exp - now) 86400 < 7 →
      severities (check_signature_expiration (some exp) now) = [Severity.high]) ∧
    (7 ≤ Int.fdiv (exp - now) 86400 → Int.fdiv (exp - now) 86400 < 30 →
      severities (check_signature_expiration (some exp) now) = [Severity.medium]) ∧
    (30 ≤ Int.fdiv (exp - now) 86400 →
      check_signature_expiration (some exp) now = []) := by
  refine ⟨?_, ?_, ?_, ?_⟩
  · intro h
    simp [check_signature_expiration, h, severities]
  · intro h0 h7
    have hn : ¬ (Int.fdiv (exp - now) 86400 < 0) := by omega
    simp [check_signature_expiration, hn, h7, severities]
  · intro h7 h30
    have hn0 : ¬ (Int.fdiv (exp - now) 86400 < 0) := by omega
    have hn7 : ¬ (Int.fdiv (exp - now) 86400 < 7) := by omega
    simp [check_signature_expiration, hn0, hn7, h30, severities]
  · intro h
    have hn0 : ¬ (Int.fdiv (exp - now) 86400 < 0) := by omega
    have hn7 : ¬ (Int.fdiv (exp - now) 86400 < 7) := by omega
    have hn30 : ¬ (Int.fdiv (exp - now) 86400 < 30) := by omega
    simp [check_signature_expiration, hn0, hn7, hn30]

/-- C6 witness: the boundary days -1, 0, 7 and 30, at a zero clock. -/
theorem signature_expiration_buckets_witness :
    severities (check_signature_expiration (some (-86400)) 0) = [Severity.critical] ∧
    severities (check_signature_expiration (some 0) 0) = [Severity.high] ∧
    severities (check_signature_expiration (some 604800) 0) = [Severity.medium] ∧
    check_signature_expiration (some 2592000) 0 = [] :=
  ⟨(signature_expiration_buckets (-86400) 0).1 (by decide),
   (signature_expiration_buckets 0 0).2.1 (by decide) (by decide),
   (signature_expiration_buckets 604800 0).2.2.1 (by decide) (by decide),
   (signature_expiration_buckets 2592000 0).2.2.2 (by decide)⟩

/-- C9 counterexample: check_signature_expiration reads the clock
(`datetime.utcnow()`), so two calls with the same rrsig argument give
lists differing even in severity when made at different times — the
claimed call-to-call referential transparency fails. -/
theorem policy_clock_dependence_cex :
    severities (check_signature_expiration (some 864000) 0) ≠
    severities (check_signature_expiration (some 864000) 5184000) := by
  decide

/-- C9 (amended): the check functions mutate nothing and are
deterministic in their arguments plus the current clock reading; for
check_algorithm_strength and check_key_strength the clock only enters
the issues' creation timestamps, so their outputs at two different clock
readings agree on every other field. -/
theorem policy_checks_deterministic (a : String) (bits : Int) (n1 n2 : Int) :
    (check_algorithm_strength a n1).map stripTs = (check_algorithm_strength a n2).map stripTs ∧
    (check_key_strength a bits n1).map stripTs = (check_key_strength a bits n2).map stripTs := by
  constructor
  · simp only [check_algorithm_strength]
    split_ifs <;> rfl
  · simp only [check_key_strength]
    split_ifs <;> rfl

/-- C7: overall_status is "no_dnssec" whenever dnssec_enabled is false,
regardless of issues; otherwise "critical_issues" if any CRITICAL issue,
else "vulnerable" if any HIGH issue, else "warnings" if any issue, else
"secure"; consequently a result with a CRITICAL issue never reports
"secure", "warnings" or "vulnerable". -/
theorem overall_status_spec (r : ValidationResult) :
    (r.dnssec_enabled = false → r.overall_status = "no_dnssec") ∧
    (r.dnssec_enabled = true →
      (∃ i ∈ r.security_issues, i.severity = Severity.critical) →
      r.overall_status = "critical_issues") ∧
    (r.dnssec_enabled = true →
      (¬ ∃ i ∈ r.security_issues, i.severity = Severity.critical) →
      (∃ i ∈ r.security_issues, i.severity = Severity.high) →
      r.overall_status = "vulnerable") ∧
    (r.dnssec_enabled = true →
      (¬ ∃ i ∈ r.security_issues, i.severity = Severity.critical) →
      (¬ ∃ i ∈ r.security_issues, i.severity = Severity.high) →
      r.security_issues ≠ [] → r.overall_status = "warnings") ∧
    (r.dnssec_enabled = true → r.security_issues = [] →
      r.overall_status = "secure") ∧
    ((∃ i ∈ r.security_issues, i.severity = Severity.critical) →
      r.overall_status ≠ "secure" ∧ r.overall_status ≠ "warnings" ∧
      r.overall_status ≠ "vulnerable") := by
  have hcrit : r.security_issues.any (fun i => decide (i.severity = Severity.critical)) = true ↔
      ∃ i ∈ r.security_issues, i.severity = Severity.critical := by
    simp [List.any_eq_true]
  have hhigh : r.security_issues.any (fun i => decide (i.severity = Severity.high)) = true ↔
      ∃ i ∈ r.security_issues, i.severity = Severity.high := by
    simp [List.any_eq_true]
  refine ⟨?_, ?_, ?_, ?_, ?_, ?_⟩
  · intro h
    simp [ValidationResult.overall_status, h]
  · intro he hc
    simp [ValidationResult.overall_status, he, hcrit.mpr hc]
  · intro he hc hh
    have hc' : r.security_issues.any (fun i => decide (i.severity = Severity.critical)) = false := by
      rw [Bool.eq_false_iff]
      exact fun hx => hc (hcrit.mp hx)
    simp [ValidationResult.overall_status, he, hc', hhigh.mpr hh]
  · intro he hc hh hne
    have hc' : r.security_issues.any (fun i => decide (i.severity = Severity.critical)) = false := by
      rw [Bool.eq_false_iff]
      exact fun hx => hc (hcrit.mp hx)
    have hh' : r.security_issues.any (fun i => decide (i.severity = Severity.high)) = false := by
      rw [Bool.eq_false_iff]
      exact fun hx => hh (hhigh.mp hx)
    simp [ValidationResult.overall_status, he, hc', hh', hne]
  · intro he hemp
    simp [ValidationResult.overall_status, he, hemp]
  · intro hc
    rcases h : r.dnssec_enabled with _ | _
    · have := (by simp [ValidationResult.overall_status, h] :
        r.overall_status = "no_dnssec")
      rw [this]
      refine ⟨by decide, by decide, by decide⟩
    · have := (by simp [ValidationResult.overall_status, h, hcrit.mpr hc] :
        r.overall_status = "critical_issues")
      rw [this]
      refine ⟨by decide, by decide, by decide⟩

/-- C7 witness: a disabled result maps to "no_dnssec" and an enabled
result carrying one CRITICAL issue maps to "critical_issues" and to none
of the lower statuses. -/
theorem overall_status_spec_witness :
    ({ domain := "example.com", timestamp := 0, dnssec_enabled := false,
       chain_valid := false, validation_time_ms := 0 } : ValidationResult).overall_status
      = "no_dnssec" ∧
    ({ domain := "example.com", timestamp := 0, dnssec_enabled := true,
       chain_valid := true, validation_time_ms := 0,
       security_issues := [{ type := IssueType.algorithm_weak,
                             severity := Severity.critical,
                             message := "m", timestamp := 0 }] } : ValidationResult).overall_status
      = "critical_issues" :=
  ⟨(overall_status_spec _).1 rfl,
   (overall_status_spec _).2.1 rfl ⟨_, List.mem_singleton.mpr rfl, rfl⟩⟩

/-- C4 counterexample: on a concrete raw key record (flags 257, i.e.
Secure Entry Point and Zone Key bits set) the parser produces no KeyInfo
at all — tester.py never imports `dns`, so `_parse_keys` raises
NameError on every non-empty record set — hence it neither sets
isKeySigningKey nor derives isZoneSigningKey for any record. -/
theorem parse_keys_nameerror_cex :
    parse_keys (some
      [{ flags := 257, algorithm_text := "ED25519", key_id := 1,
         key_bit_length := 256, key_hex := "aa" }])
      = Except.error "name 'dns' is not defined" :=
  rfl

/-- C4 (amended): the parser returns the empty key list for an absent or
empty record set, and raises NameError (name 'dns' is not defined, from
the missing import in tester.py) on every non-empty record set, so it
never produces a KeyInfo; the claim's per-record role assignments sit in
unreachable code (which would in any case hard-code isZoneSigningKey to
True rather than decode it from the flag bits). -/
theorem parse_keys_behavior (r : RawDNSKey) (rest : List RawDNSKey) :
    parse_keys none = Except.ok [] ∧
    parse_keys (some []) = Except.ok [] ∧
    parse_keys (some (r :: rest)) = Except.error "name 'dns' is not defined" :=
  ⟨rfl, rfl, rfl⟩

/-- The walk loop records at most one element per label of the starting
name. -/
theorem walk_aux_length_le (step : String → Except String ChainData)
    (labels : List String) :
    (walk_chain_aux step labels).length ≤ labels.length := by
  induction labels with
  | nil => simp [walk_chain_aux]
  | cons l rest ih =>
    simp only [walk_chain_aux]
    cases step (nameFrom (l :: rest)) with
    | ok d => simpa using ih
    | error e => simp

/-- If the body raises at level i after succeeding at levels 0..i-1, the
loop returns exactly the i elements already collected. -/
theorem walk_aux_early_stop (step : String → Except String ChainData) :
    ∀ (labels : List String) (i : Nat) (d : Nat → ChainData) (e : String),
      i ≤ labels.length →
      (∀ j, j < i → step (nameAt labels j) = Except.ok (d j)) →
      step (nameAt labels i) = Except.error e →
      walk_chain_aux step labels = (List.range i).map (fun j => (nameAt labels j, d j)) := by
  intro labels
  induction labels with
  | nil =>
    intro i d e hi hok herr
    have h0 : i = 0 := Nat.le_zero.mp hi
    subst h0
    simp [walk_chain_aux]
  | cons l rest ih =>
    intro i d e hi hok herr
    cases i with
    | zero =>
      have herr' : step (nameFrom (l :: rest)) = Except.error e := herr
      simp [walk_chain_aux, herr']
    | succ k =>
      have h0 : step (nameFrom (l :: rest)) = Except.ok (d 0) :=
        hok 0 (Nat.succ_pos k)
      have herr2 : step (nameAt rest k) = Except.error e := herr
      have ihr := ih k (fun j => d (j + 1)) e (Nat.succ_le_succ_iff.mp hi)
        (fun j hj => hok (j + 1) (Nat.succ_lt_succ hj)) herr2
      simp only [walk_chain_aux, h0, ihr, List.range_succ_eq_map, List.map_cons,
        List.map_map]
      rfl

/-- C8: the chain walk always terminates (walk_chain_aux is structurally
recursive on the label list) and returns at most N+1 elements for a
starting domain with N labels; and if the loop body raises a transport
error at some level after succeeding at the earlier ones, the walk stops
there and returns the elements already collected. -/
theorem walk_chain_terminates_bounded (raw : RawResolver) (domain : String)
    (step : String → Except String ChainData) (labels : List String)
    (i : Nat) (d : Nat → ChainData) (e : String) :
    (walk_chain raw domain).length ≤ (labelsOf domain).length + 1 ∧
    (walk_chain_aux step labels).length ≤ labels.length + 1 ∧
    (i ≤ labels.length →
      (∀ j, j < i → step (nameAt labels j) = Except.ok (d j)) →
      step (nameAt labels i) = Except.error e →
      walk_chain_aux step labels = (List.range i).map (fun j => (nameAt labels j, d j))) :=
  ⟨Nat.le_succ_of_le (walk_aux_length_le (chain_step raw) (labelsOf domain)),
   Nat.le_succ_of_le (walk_aux_length_le step labels),
   walk_aux_early_stop step labels i d e⟩

/-- C8 witness: a three-label walk whose body raises at the second level
returns exactly the one element collected at the leaf, and a full walk
of a three-label domain has at most four elements. -/
theorem walk_chain_terminates_bounded_witness :
    walk_chain_aux failingStep ["www", "example", "com"]
      = [("www.example.com.", { dnskeys := none, ds_records := none })] ∧
    (walk_chain emptyResolver "www.example.com").length ≤ 4 :=
  ⟨(walk_chain_terminates_bounded emptyResolver "www.example.com" failingStep
      ["www", "example", "com"] 1 (fun _ => { dnskeys := none, ds_records := none })
      "SERVFAIL").2.2
      (by decide)
      (fun j hj => by
        have hj0 : j = 0 := by omega
        subst hj0
        rfl)
      rfl,
   (walk_chain_terminates_bounded emptyResolver "www.example.com" failingStep
      ["www", "example", "com"] 1 (fun _ => { dnskeys := none, ds_records := none })
      "SERVFAIL").1⟩

/-- C3 counterexample: with no key material at the leaf, test_domain
returns dnssec_enabled = false, an empty chain and status "no_dnssec" as
claimed, but its security_issues list is empty — not "exactly one HIGH
configuration issue" — because test_domain never invokes the analyzer. -/
theorem no_dnssec_cex :
    (test_domain emptyResolver {} 0 "example.com").dnssec_enabled = false ∧
    (test_domain emptyResolver {} 0 "example.com").chain_of_trust = [] ∧
    (test_domain emptyResolver {} 0 "example.com").security_issues = [] ∧
    (test_domain emptyResolver {} 0 "example.com").overall_status = "no_dnssec" := by
  refine ⟨rfl, rfl, rfl, rfl⟩

/-- C3 (amended): an absent leaf key-material answer short-circuits
test_domain: the result has dnssec_enabled = false, empty chain, EMPTY
security_issues and status "no_dnssec", and depends on nothing else the
resolver or configuration would supply (no further queries); the single
HIGH configuration issue of the claim is produced only by the separate
DNSSECAnalyzer.analyze_result, which test_domain does not call. -/
theorem no_dnssec_short_circuit (raw raw' : RawResolver) (cfg cfg' : DNSSECConfig)
    (now : Int) (domain : String)
    (h : get_dnskeys raw domain = none) (h' : get_dnskeys raw' domain = none) :
    (test_domain raw cfg now domain).dnssec_enabled = false ∧
    (test_domain raw cfg now domain).chain_of_trust = [] ∧
    (test_domain raw cfg now domain).security_issues = [] ∧
    (test_domain raw cfg now domain).overall_status = "no_dnssec" ∧
    test_domain raw cfg now domain = test_domain raw' cfg' now domain ∧
    severities (analyze_result (test_domain raw cfg now domain) now) = [Severity.high] ∧
    (analyze_result (test_domain raw cfg now domain) now).map (fun i => i.type)
      = [IssueType.configuration_issue] := by
  have hr : test_domain raw cfg now domain =
      { domain := domain, timestamp := now, dnssec_enabled := false,
        chain_valid := false, validation_time_ms := 0 } := by
    simp [test_domain, h]
  have hr' : test_domain raw' cfg' now domain =
      { domain := domain, timestamp := now, dnssec_enabled := false,
        chain_valid := false, validation_time_ms := 0 } := by
    simp [test_domain, h']
  rw [hr, hr']
  refine ⟨rfl, rfl, rfl, rfl, rfl, rfl, rfl⟩

/-- C3 witness: the amended statement at a concrete resolver with no
answers. -/
theorem no_dnssec_short_circuit_witness :
    (test_domain emptyResolver {} 0 "nosig.example").security_issues = [] ∧
    severities (analyze_result (test_domain emptyResolver {} 0 "nosig.example") 0)
      = [Severity.high] :=
  ⟨(no_dnssec_short_circuit emptyResolver emptyResolver {} {} 0 "nosig.example" rfl rfl).2.2.1,
   (no_dnssec_short_circuit emptyResolver emptyResolver {} {} 0 "nosig.example" rfl rfl).2.2.2.2.2.1⟩

/-- C10: the claim fails on the code. With key material present and
chain-following enabled (the default), the missing dns import makes the
key parse raise before the chain walk; the orchestration-boundary except
leaves chain_valid at its False initialization with an empty chain and
one HIGH "Validation error" issue — so chain_valid is not the claimed
conjunction (here chain-following is enabled and the walked chain is
vacuously all-valid, yet chain_valid is false), and the vacuous-true
empty-walk case never occurs for a domain with any key record. -/
theorem chain_valid_nameerror :
    ({} : DNSSECConfig).follow_chain = true ∧
    (test_domain ed25519Resolver {} 0 "example.com").dnssec_enabled = true ∧
    (test_domain ed25519Resolver {} 0 "example.com").chain_valid = false ∧
    (test_domain ed25519Resolver {} 0 "example.com").chain_of_trust = [] ∧
    (test_domain ed25519Resolver {} 0 "example.com").security_issues.map
      (fun i => (i.severity, i.message))
      = [(Severity.high, "Validation error: name 'dns' is not defined")] :=
  ⟨rfl, rfl, rfl, rfl, rfl⟩

/-- C2 counterexample: a batch of three domains where the second query
times out does return three results in order, but the timed-out domain's
result carries NO embedded issue (it is merely marked
dnssec_enabled = false with empty security_issues), contradicting
"failures produce a result containing an embedded issue"; the other two
domains each carry the single HIGH "Validation error" issue from the
caught key-parse NameError, not policy findings. -/
theorem batch_timeout_cex :
    (test_domains timeoutResolver {} 0 ["a.com", "b.com", "c.com"]).map
      (fun r => (r.domain, r.dnssec_enabled, r.security_issues.length))
      = [("a.com", true, 1), ("b.com", false, 0), ("c.com", true, 1)] := by
  decide

/-- C2 (amended): test_domains returns exactly one result per input
domain, in input order (every per-domain failure is absorbed inside
test_domain, so the result-dropping except branch of test_domains never
fires); but a transport failure of the leaf key query yields a result
with dnssec_enabled = false and EMPTY security_issues — no
timeout-derived issue is embedded — while a leaf query that does return
records yields exactly one embedded HIGH chain_invalid "Validation
error" issue from the caught key-parse NameError. -/
theorem test_domains_shape (raw : RawResolver) (cfg : DNSSECConfig) (now : Int)
    (domains : List String) :
    (test_domains raw cfg now domains).length = domains.length ∧
    (∀ i, (test_domains raw cfg now domains).get? i
        = (domains.get? i).map (test_domain raw cfg now)) ∧
    (∀ domain e, raw.dnskey (normalize_name domain) = Except.error e →
      (test_domain raw cfg now domain).dnssec_enabled = false ∧
      (test_domain raw cfg now domain).security_issues = []) ∧
    (∀ domain r rest, raw.dnskey (normalize_name domain) = Except.ok (some (r :: rest)) →
      severities (test_domain raw cfg now domain).security_issues = [Severity.high] ∧
      (test_domain raw cfg now domain).security_issues.map (fun i => i.type)
        = [IssueType.chain_invalid]) := by
  refine ⟨by simp [test_domains], fun i => by simp [test_domains, List.get?_map], ?_, ?_⟩
  · intro domain e he
    have h : get_dnskeys raw domain = none := by simp [get_dnskeys, he]
    constructor <;> simp [test_domain, h]
  · intro domain r rest he
    have h : get_dnskeys raw domain = some (r :: rest) := by simp [get_dnskeys, he]
    constructor <;> simp [test_domain, h, parse_keys, severities]

/-- C2 witness: the shape properties at the timing-out resolver, for
both the timed-out domain and an answering one. -/
theorem test_domains_shape_witness :
    (test_domains timeoutResolver {} 0 ["b.com"]).length = 1 ∧
    (test_domain timeoutResolver {} 0 "b.com").dnssec_enabled = false ∧
    (test_domain timeoutResolver {} 0 "b.com").security_issues = [] ∧
    severities (test_domain timeoutResolver {} 0 "a.com").security_issues = [Severity.high] :=
  ⟨(test_domains_shape timeoutResolver {} 0 ["b.com"]).1,
   ((test_domains_shape timeoutResolver {} 0 ["b.com"]).2.2.1 "b.com" "Timeout" rfl).1,
   ((test_domains_shape timeoutResolver {} 0 ["b.com"]).2.2.1 "b.com" "Timeout" rfl).2,
   ((test_domains_shape timeoutResolver {} 0 ["a.com"]).2.2.2 "a.com"
      { flags := 257, algorithm_text := "RSASHA1", key_id := 12345,
        key_bit_length := 256, key_hex := "aa" } [] rfl).1⟩
